import Mathlib

/-!
Shallow embedding of the icloud-mcp resource gateway (server.py, auth.py,
tools/calendar.py, tools/mail.py, tools/reminders.py).

Modelling conventions:
* Python exceptions are `Except String α` (`.error msg` = raised exception).
* Instants (datetimes) are `Int` time units; `dateparser.parse` is modelled
  as `String.toInt?` (parse failure raises, as in the source).
* Backend I/O (CalDAV, IMAP, EventKit) is modelled by a `World` record that
  holds the remote state the adapters would observe; adapter functions are
  translated from the source over that state.
-/

namespace ICloudMCP

/-- JSON-like values: the shape of every tool result (`json.dumps` payload). -/
inductive Json where
  | null
  | bool (b : Bool)
  | num (n : Int)
  | str (s : String)
  | arr (xs : List Json)
  | obj (fields : List (String × Json))

/-- The gateway's error envelope: `{"error": msg}`. -/
def errorEnvelope (msg : String) : Json :=
  Json.obj [("error", Json.str msg)]

/-- A result is an error envelope iff it is an object carrying an "error" key. -/
def isErrorEnvelope : Json → Bool
  | Json.obj fields => fields.any (fun f => f.1 = "error")
  | _ => false

/-- Python slice `xs[i:]` (negative `i` counts from the end; `xs[-0:] = xs`). -/
def pySliceFrom (xs : List α) (i : Int) : List α :=
  xs.drop (if i < 0 then max ((xs.length : Int) + i) 0 else min i (xs.length : Int)).toNat

/-- Auxiliary: does `s` contain `pat` as a contiguous sublist? -/
def hasSubList (pat : List Char) : List Char → Bool
  | [] => pat.isEmpty
  | c :: rest => pat.isPrefixOf (c :: rest) || hasSubList pat rest

/-- Python `pat in s` on strings. -/
def strContainsSub (s pat : String) : Bool :=
  hasSubList pat.data s.data

/-- Python truthiness for strings: `s or d`. -/
def pyOr (s d : String) : String :=
  if s = "" then d else s

/-- Auxiliary for `parseDate`: read a digit string. -/
def digitsToNat (acc : Nat) : List Char → Option Nat
  | [] => some acc
  | c :: rest => if c.isDigit then digitsToNat (acc * 10 + (c.toNat - 48)) rest else none

/-- `dateparser.parse`, modelled over integer instants: an optionally signed
integer literal parses, anything else raises. -/
def parseDate (s : String) : Option Int :=
  match s.data with
  | [] => none
  | '-' :: rest => if rest = [] then none else (digitsToNat 0 rest).map (fun n => -(n : Int))
  | l => (digitsToNat 0 l).map (fun n => (n : Int))

-- ---------------------------------------------------------------------------
-- tools/mail.py
-- ---------------------------------------------------------------------------

/-- One MIME part as seen by `msg.walk()`: content type, Content-Disposition
header, and the result of `get_payload(decode=True).decode(charset, "replace")`
(which is total for leaf parts; decoding is abstracted to its result). -/
structure MailPart where
  contentType : String
  contentDisposition : String
  decoded : String
deriving DecidableEq, Repr

/-- One message in a mailbox. `uid` is the IMAP sequence identifier; `seen`
is the absence of the UNSEEN flag; `fetchOk` models a non-empty FETCH reply;
`payloadDecoded = none` models a falsy top-level `get_payload(decode=True)`. -/
structure MailMsgRec where
  uid : String
  subject : String
  fromAddr : String
  toAddr : String
  date : String
  messageId : String
  seen : Bool
  fetchOk : Bool
  multipart : Bool
  parts : List MailPart
  payloadDecoded : Option String
deriving DecidableEq, Repr

/-- `_fmt_message`: header summary fields (header decoding abstracted). -/
def fmt_message_fields (uid : String) (m : MailMsgRec) : List (String × Json) :=
  [ ("uid", Json.str uid)
  , ("subject", Json.str m.subject)
  , ("from", Json.str m.fromAddr)
  , ("to", Json.str m.toAddr)
  , ("date", Json.str m.date)
  , ("message_id", Json.str m.messageId) ]

/-- `_fmt_message` as a dict. -/
def fmt_message (uid : String) (m : MailMsgRec) : Json :=
  Json.obj (fmt_message_fields uid m)

/-- `list_messages` (tools/mail.py): clamp `limit = min(limit, 100)`, SEARCH
with UNSEEN/ALL, take `uids[-limit:][::-1]`, fetch headers per uid skipping
empty FETCH replies. `mbox` is the mailbox content in mailbox (oldest-first)
order. -/
def list_messages (mbox : List MailMsgRec) (limit : Int) (unread_only : Bool) :
    List Json :=
  let limit := min limit 100
  let matched := if unread_only then mbox.filter (fun m => !m.seen) else mbox
  let sel := (pySliceFrom matched (-limit)).reverse
  (sel.filter (fun m => m.fetchOk)).map (fun m => fmt_message m.uid m)

/-- The part filter of the `msg.walk()` loop in `get_message`:
`ct == "text/plain" and "attachment" not in cd`. -/
def isPlainNonAttachment (p : MailPart) : Bool :=
  p.contentType = "text/plain" && !(strContainsSub p.contentDisposition "attachment")

/-- Body extraction inside `get_message`: for a multipart message the first
`text/plain` part whose Content-Disposition does not contain "attachment"
(`body` stays `""` when no such part exists); otherwise the top-level payload
when truthy. -/
def extract_body (m : MailMsgRec) : String :=
  if m.multipart then
    match m.parts.find? isPlainNonAttachment with
    | some p => p.decoded
    | none => ""
  else
    match m.payloadDecoded with
    | some s => s
    | none => ""

/-- `get_message` (tools/mail.py): FETCH by uid; empty reply (unknown uid or
failed fetch) yields `None`; otherwise headers plus extracted body. -/
def get_message (mbox : List MailMsgRec) (uid : String) : Option Json :=
  match mbox.find? (fun m => m.uid = uid) with
  | none => none
  | some m =>
    if !m.fetchOk then none
    else
      some (Json.obj (fmt_message_fields uid m ++ [("body", Json.str (extract_body m))]))

-- ---------------------------------------------------------------------------
-- tools/calendar.py
-- ---------------------------------------------------------------------------

/-- One VEVENT component as stored in a CalDAV calendar (dates as instants;
the `_fmt_event` string extraction is abstracted to the field values). -/
structure CalEventRec where
  uid : String
  summary : String
  dtstart : Int
  dtend : Int
  location : String
  descriptionText : String
deriving DecidableEq, Repr

/-- One CalDAV calendar: id, display name (`""` models a falsy `cal.name`),
URL, its VEVENTs, and `searchOk = false` models `cal.search` raising (the
source skips such a calendar via `except: continue`). -/
structure CalCalendar where
  id : String
  name : String
  url : String
  events : List CalEventRec
  searchOk : Bool
deriving DecidableEq, Repr

/-- `_fmt_calendar`. -/
def fmt_calendar (c : CalCalendar) : Json :=
  Json.obj
    [ ("uid", Json.str c.id)
    , ("title", Json.str (pyOr c.name "(unnamed)"))
    , ("url", Json.str c.url) ]

/-- `_fmt_event` over the event record (instants rendered as numbers in place
of `isoformat`). -/
def fmt_event (e : CalEventRec) : List (String × Json) :=
  [ ("uid", Json.str e.uid)
  , ("title", Json.str e.summary)
  , ("start", Json.num e.dtstart)
  , ("end", Json.num e.dtend)
  , ("location", Json.str e.location)
  , ("description", Json.str e.descriptionText) ]

/-- `list_calendars` (tools/calendar.py). -/
def list_calendars (cals : List CalCalendar) : List Json :=
  cals.map fmt_calendar

/-- `cal.search(start=start, end=end, event=True)`: events overlapping the
window (CalDAV time-range semantics: `start < DTEND` and `end > DTSTART`). -/
def searchWindow (c : CalCalendar) (first last : Int) : List CalEventRec :=
  c.events.filter (fun e => first < e.dtend && last > e.dtstart)

/-- `list_events` (tools/calendar.py): parse bounds (default `now` to
`now + 7` days), optionally filter calendars by uid, search each calendar in
the window skipping calendars whose search raises, tag each event dict with
its calendar name. One day is one time unit. -/
def list_events (cals : List CalCalendar) (now : Int)
    (from_date to_date : Option String) (calendar_uid : Option String) :
    Except String (List Json) := do
  let first ← match from_date with
    | some s => match parseDate s with
      | some v => pure v
      | none => Except.error ("Unknown string format: " ++ s)
    | none => pure now
  let last ← match to_date with
    | some s => match parseDate s with
      | some v => pure v
      | none => Except.error ("Unknown string format: " ++ s)
    | none => pure (now + 7)
  let selected : List CalCalendar := match calendar_uid with
    | some cu => cals.filter (fun c => c.id = cu)
    | none => cals
  return (selected.filter (fun c => c.searchOk)).flatMap
    (fun c => (searchWindow c first last).map
      (fun e => Json.obj (fmt_event e ++ [("calendar", Json.str (pyOr c.name ""))])))

/-- `get_event` (tools/calendar.py): for each calendar, `cal.search(event=True)`
— all events, no time window — and return the first VEVENT whose uid matches;
calendars whose search raises are skipped; `None` after scanning them all. -/
def get_event (cals : List CalCalendar) (event_uid : String) : Option Json :=
  cals.findSome? (fun c =>
    if c.searchOk then
      (c.events.find? (fun e => e.uid = event_uid)).map
        (fun e => Json.obj (fmt_event e ++ [("calendar", Json.str (pyOr c.name ""))]))
    else none)

/-- `create_event` (tools/calendar.py): parse start/end (raising on failure);
with `calendar_uid` given, the matching calendar or `ValueError`; omitted,
`calendars[0]` (IndexError on an empty account). The fresh uid is
`uuid.uuid4()`, modelled as an input. Returns the echoed event dict. -/
def create_event (cals : List CalCalendar) (freshUid : String)
    (title startS endS : String) (calendar_uid : Option String)
    (location descriptionText : String) : Except String Json := do
  let startDt ← match parseDate startS with
    | some v => pure v
    | none => Except.error ("Unknown string format: " ++ startS)
  let endDt ← match parseDate endS with
    | some v => pure v
    | none => Except.error ("Unknown string format: " ++ endS)
  let cal ← match calendar_uid with
    | some cu => match cals.find? (fun c => c.id = cu) with
      | some c => pure c
      | none => Except.error ("Calendar \x27" ++ cu ++ "\x27 not found.")
    | none => match cals with
      | c :: _ => pure c
      | [] => Except.error "list index out of range"
  return Json.obj
    [ ("uid", Json.str freshUid)
    , ("title", Json.str title)
    , ("start", Json.num startDt)
    , ("end", Json.num endDt)
    , ("location", Json.str location)
    , ("description", Json.str descriptionText)
    , ("calendar", Json.str (pyOr cal.name "")) ]

-- ---------------------------------------------------------------------------
-- tools/reminders.py
-- ---------------------------------------------------------------------------

/-- The bounded wait used by every callback-to-synchronous bridge in
tools/reminders.py (`granted_event.wait(timeout=30)` /
`done_event.wait(timeout=30)`). -/
def REMINDER_WAIT_TIMEOUT : Nat := 30

/-- One EKReminder (`dueDateComponents` abstracted to an optional instant). -/
structure RemReminder where
  uid : String
  title : String
  notes : String
  completed : Bool
  dueInstant : Option Int
  priority : Int
  listTitle : String
deriving DecidableEq, Repr

/-- One reminder list (EKCalendar for the reminder entity type). -/
structure RemCalendar where
  uid : String
  title : String
  reminders : List RemReminder
deriving DecidableEq, Repr

/-- The EventKit side of the world. `permissionResponse = none` models the
access-request callback not firing within the 30-unit wait (timeout);
`fetchDelivered = false` models the reminder-query callback not firing within
its 30-unit wait; `saveOk` is the result of `saveReminder_commit_error_`. -/
structure RemWorld where
  permissionResponse : Option Bool
  fetchDelivered : Bool
  calendars : List RemCalendar
  defaultListTitle : String
  saveOk : Bool
deriving DecidableEq, Repr

/-- The dict produced by `_fmt_reminder`. -/
structure RemDict where
  uid : String
  title : String
  descriptionText : String
  completed : Bool
  due : String
  priority : Int
  listName : String
deriving DecidableEq, Repr

/-- `_fmt_reminder`. -/
def fmt_reminder (r : RemReminder) : RemDict :=
  { uid := r.uid
  , title := r.title
  , descriptionText := r.notes
  , completed := r.completed
  , due := match r.dueInstant with
      | some t => toString t
      | none => ""
  , priority := r.priority
  , listName := r.listTitle }

/-- `RemDict` rendered as the Json the gateway serializes. -/
def remDictJson (r : RemDict) : Json :=
  Json.obj
    [ ("uid", Json.str r.uid)
    , ("title", Json.str r.title)
    , ("description", Json.str r.descriptionText)
    , ("completed", Json.bool r.completed)
    , ("due", Json.str r.due)
    , ("priority", Json.num r.priority)
    , ("list", Json.str r.listName) ]

/-- `_get_store`: bridge the access-request callback with a 30-unit wait; a
missing callback (timeout) leaves `result_holder` empty, and the source treats
that exactly like a denied grant: `PermissionError`. -/
def get_store (w : RemWorld) : Except String Unit :=
  match w.permissionResponse with
  | some true => Except.ok ()
  | some false => Except.error
      "Access to Reminders was denied. Grant access in System Settings → Privacy & Security → Reminders."
  | none => Except.error
      "Access to Reminders was denied. Grant access in System Settings → Privacy & Security → Reminders."

/-- `list_lists` (tools/reminders.py). -/
def list_lists (w : RemWorld) : Except String (List Json) := do
  let _ ← get_store w
  return w.calendars.map (fun c =>
    Json.obj [("uid", Json.str c.uid), ("title", Json.str c.title)])

/-- `list_reminders` (tools/reminders.py): optional list filter, then the
fetch callback bridged with a 30-unit wait — when the callback does not fire,
`result_holder` is empty and `all_reminders` silently becomes `[]` — then
format and drop completed reminders unless requested. -/
def list_reminders (w : RemWorld) (list_uid : Option String)
    (include_completed : Bool) : Except String (List RemDict) := do
  let _ ← get_store w
  let cals : List RemCalendar := match list_uid with
    | some lu => w.calendars.filter (fun c => c.uid = lu)
    | none => w.calendars
  let all_reminders : List RemReminder :=
    if w.fetchDelivered then cals.flatMap (fun c => c.reminders) else []
  let results := all_reminders.map fmt_reminder
  let results := if include_completed then results
    else results.filter (fun r => !r.completed)
  return results

/-- `complete_reminder` (tools/reminders.py): look up by uid via
`calendarItemWithIdentifier_`; not found returns `False`; found sets the flag
and calls `saveReminder_commit_error_` with its Bool result DISCARDED, then
returns `True` regardless of `saveOk`. -/
def complete_reminder (w : RemWorld) (uid : String) : Except String Bool := do
  let _ ← get_store w
  match (w.calendars.flatMap (fun c => c.reminders)).find? (fun r => r.uid = uid) with
  | none => return false
  | some _ =>
    let _success := w.saveOk
    return true

/-- `create_reminder` (tools/reminders.py): resolve the target list
(`defaultCalendarForNewReminders` when omitted), parse `due` (raising on
failure), and save — here, unlike `complete_reminder`, a `False` save result
raises `RuntimeError("Failed to save reminder.")`. The fresh EventKit
identifier is an input. -/
def create_reminder (w : RemWorld) (freshUid : String) (title : String)
    (list_uid : Option String) (due : Option String)
    (descriptionText : String) (priority : Int) : Except String RemDict := do
  let _ ← get_store w
  let listTitle ← match list_uid with
    | some lu => match w.calendars.find? (fun c => c.uid = lu) with
      | some c => pure c.title
      | none => Except.error ("Reminder list \x27" ++ lu ++ "\x27 not found.")
    | none => pure w.defaultListTitle
  let dueInstant ← match due with
    | some s => match parseDate s with
      | some v => pure (some v)
      | none => Except.error ("Unknown string format: " ++ s)
    | none => pure (none : Option Int)
  if !w.saveOk then Except.error "Failed to save reminder."
  else return (fmt_reminder
    { uid := freshUid, title := title, notes := descriptionText
    , completed := false, dueInstant := dueInstant
    , priority := priority, listTitle := listTitle })

-- ---------------------------------------------------------------------------
-- auth.py and the session state machine in server.py
-- ---------------------------------------------------------------------------

/-- What the Keychain and iCloud would answer: stored keys (`none` models a
missing key, `some ""` an empty one — both falsy in the source check), whether
`PyiCloudService` login succeeds, whether 2FA is demanded, and whether the
operator-entered code is accepted (`input()` is abstracted to its outcome). -/
structure AuthWorld where
  keychainAppleId : Option String
  keychainPassword : Option String
  loginOk : Bool
  requires2fa : Bool
  codeAccepted : Bool
  trustedSession : Bool
deriving DecidableEq, Repr

/-- `get_credentials` (auth.py): both keys must be present and truthy. -/
def get_credentials (a : AuthWorld) : Except String (String × String) :=
  match a.keychainAppleId, a.keychainPassword with
  | some i, some p =>
    if i = "" || p = "" then
      Except.error "iCloud credentials not found in Keychain.\nRun: uv run python3 auth.py store"
    else Except.ok (i, p)
  | _, _ =>
    Except.error "iCloud credentials not found in Keychain.\nRun: uv run python3 auth.py store"

/-- The memoized `PyiCloudService` handle (global `_api` in server.py). -/
structure Api where
  appleId : String
  appPassword : String
deriving DecidableEq, Repr

/-- `_get_api` (server.py): return the cached handle if present; otherwise
read credentials, attempt login (a rejected login raises the RuntimeError
below), run the 2FA challenge when demanded (a rejected code raises;
`trust_session` is a backend side effect with no gateway-visible state), and
only then memoize. The pair is (raised-or-returned handle, new `_api`). -/
def get_api (a : AuthWorld) (cached : Option Api) :
    Except String Api × Option Api :=
  match cached with
  | some api => (Except.ok api, some api)
  | none =>
    match get_credentials a with
    | Except.error e => (Except.error e, none)
    | Except.ok (appleId, appPassword) =>
      if !a.loginOk then
        (Except.error "iCloud login failed. Check your credentials: python auth.py verify", none)
      else if a.requires2fa && !a.codeAccepted then
        (Except.error "2FA code was not accepted by Apple.", none)
      else
        (Except.ok { appleId := appleId, appPassword := appPassword },
         some { appleId := appleId, appPassword := appPassword })

-- ---------------------------------------------------------------------------
-- server.py: call_tool dispatch
-- ---------------------------------------------------------------------------

/-- A JSON-schema-validated argument value. -/
inductive ArgV where
  | s (v : String)
  | i (v : Int)
  | b (v : Bool)
deriving DecidableEq, Repr

/-- The `arguments` dict. -/
abbrev Args := List (String × ArgV)

def getArg? (args : Args) (k : String) : Option ArgV :=
  (args.find? (fun p => p.1 = k)).map (fun p => p.2)

/-- `arguments.get(k)` for a string-valued argument. -/
def getStrOpt (args : Args) (k : String) : Option String :=
  match getArg? args k with
  | some (ArgV.s v) => some v
  | _ => none

/-- `arguments[k]`: a missing key raises `KeyError`, whose str is the quoted
key name. -/
def getStrReq (args : Args) (k : String) : Except String String :=
  match getStrOpt args k with
  | some v => Except.ok v
  | none => Except.error ("\x27" ++ k ++ "\x27")

/-- `arguments.get(k, d)` for strings. -/
def getStrD (args : Args) (k d : String) : String :=
  (getStrOpt args k).getD d

/-- `arguments.get(k, d)` for integers. -/
def getIntD (args : Args) (k : String) (d : Int) : Int :=
  match getArg? args k with
  | some (ArgV.i v) => v
  | _ => d

/-- `arguments.get(k, d)` for booleans. -/
def getBoolD (args : Args) (k : String) (d : Bool) : Bool :=
  match getArg? args k with
  | some (ArgV.b v) => v
  | _ => d

/-- `list_mailboxes` (tools/mail.py); the LIST-line parsing is abstracted to
the mailbox names. -/
def list_mailboxes (mailboxes : List (String × List MailMsgRec)) : List Json :=
  mailboxes.map (fun mb => Json.obj [("name", Json.str mb.1)])

/-- `conn.select` + first use: selecting a nonexistent mailbox leaves the
connection unselected and the following SEARCH/FETCH raises (imaplib error
text). -/
def selectMailbox (mailboxes : List (String × List MailMsgRec))
    (name : String) : Except String (List MailMsgRec) :=
  match mailboxes.find? (fun mb => mb.1 = name) with
  | some mb => Except.ok mb.2
  | none => Except.error "command SEARCH illegal in state AUTH, only allowed in states SELECTED"

/-- `send_message` (tools/mail.py): builds the MIME envelope with a generated
Message-ID (an input here) and sends over SMTP; a transport rejection raises. -/
def send_message (appleId : String) (msgId : String) (smtpOk : Bool)
    (toAddrs _subject _body _cc _bcc : String) : Except String Json :=
  if smtpOk then
    Except.ok (Json.obj [("status", Json.str "sent"), ("message_id", Json.str msgId)])
  else Except.error ("SMTPRecipientsRefused from " ++ appleId ++ " to " ++ toAddrs)

/-- The whole backend-visible state one tool call runs against. -/
structure World where
  auth : AuthWorld
  calendars : List CalCalendar
  freshEventUid : String
  now : Int
  mailboxes : List (String × List MailMsgRec)
  smtpOk : Bool
  freshMessageId : String
  rem : RemWorld
  freshReminderUid : String
deriving DecidableEq, Repr

/-- The body of the `try:` block of `call_tool` (server.py): the `if/elif`
dispatch on the tool name. `.error` is an exception flying toward the
`except Exception` handler; not-found for get_event/get_message and an
unknown tool name build error dicts directly, as in the source. (The source
passes `api` to every tools function; the adapter modules in src/tools take
credentials / no session instead — the call is modelled by the adapter's own
behaviour.) -/
def runTool (w : World) (api : Api) (name : String) (args : Args) :
    Except String Json := do
  if name = "calendar_list_calendars" then
    return Json.arr (list_calendars w.calendars)
  else if name = "calendar_list_events" then
    let evs ← list_events w.calendars w.now (getStrOpt args "from_date")
      (getStrOpt args "to_date") (getStrOpt args "calendar_uid")
    return Json.arr evs
  else if name = "calendar_get_event" then
    let uid ← getStrReq args "event_uid"
    match get_event w.calendars uid with
    | some j => return j
    | none => return errorEnvelope ("Event \x27" ++ uid ++ "\x27 not found.")
  else if name = "calendar_create_event" then
    let title ← getStrReq args "title"
    let startS ← getStrReq args "start"
    let endS ← getStrReq args "end"
    create_event w.calendars w.freshEventUid title startS endS
      (getStrOpt args "calendar_uid") (getStrD args "location" "")
      (getStrD args "description" "")
  else if name = "mail_list_mailboxes" then
    return Json.arr (list_mailboxes w.mailboxes)
  else if name = "mail_list_messages" then
    let mbox ← selectMailbox w.mailboxes (getStrD args "mailbox" "INBOX")
    return Json.arr (list_messages mbox (getIntD args "limit" 20)
      (getBoolD args "unread_only" false))
  else if name = "mail_get_message" then
    let uid ← getStrReq args "uid"
    let mbox ← selectMailbox w.mailboxes (getStrD args "mailbox" "INBOX")
    match get_message mbox uid with
    | some j => return j
    | none => return errorEnvelope ("Message \x27" ++ uid ++ "\x27 not found.")
  else if name = "mail_send_message" then
    let toArg ← getStrReq args "to"
    let subject ← getStrReq args "subject"
    let body ← getStrReq args "body"
    send_message api.appleId w.freshMessageId w.smtpOk toArg subject body
      (getStrD args "cc" "") (getStrD args "bcc" "")
  else if name = "reminders_list_lists" then
    let ls ← list_lists w.rem
    return Json.arr ls
  else if name = "reminders_list_reminders" then
    let rs ← list_reminders w.rem (getStrOpt args "list_uid")
      (getBoolD args "include_completed" false)
    return Json.arr (rs.map remDictJson)
  else if name = "reminders_create_reminder" then
    let title ← getStrReq args "title"
    let r ← create_reminder w.rem w.freshReminderUid title
      (getStrOpt args "list_uid") (getStrOpt args "due")
      (getStrD args "description" "") (getIntD args "priority" 0)
    return remDictJson r
  else if name = "reminders_complete_reminder" then
    let uid ← getStrReq args "uid"
    let found ← complete_reminder w.rem uid
    return Json.obj [("completed", Json.bool found)]
  else
    return errorEnvelope ("Unknown tool: " ++ name)

/-- The `try/except` of `call_tool`: every exception raised inside the
dispatch becomes `{"error": str(exc)}`. -/
def dispatch (w : World) (api : Api) (name : String) (args : Args) : Json :=
  match runTool w api name args with
  | Except.ok j => j
  | Except.error e => errorEnvelope e

/-- `call_tool` (server.py): `api = _get_api()` runs BEFORE the `try:` block,
so an exception it raises leaves the handler as `.error`; only then is the
dispatch run under the `except Exception` wrapper. Returns the response (or
escaped exception) and the new value of the `_api` global. -/
def call_tool (w : World) (st : Option Api) (name : String) (args : Args) :
    Except String Json × Option Api :=
  match get_api w.auth st with
  | (Except.error e, st2) => (Except.error e, st2)
  | (Except.ok api, st2) => (Except.ok (dispatch w api name args), st2)

-- ---------------------------------------------------------------------------
-- Spec-modelled refinement definitions (for comparison with the source)
-- ---------------------------------------------------------------------------

/-- Modelled from the spec: body extraction in which a multi-part message with
no non-attachment plain-text part "falls back to the single top-level payload
decoded with its declared character set". Used only for comparison with
`extract_body`. -/
def extract_body_specModel (m : MailMsgRec) : String :=
  match m.parts.find? isPlainNonAttachment with
  | some p => p.decoded
  | none => (m.payloadDecoded).getD ""

/-- Uid search restricted to events whose times fall inside `now ± d`. -/
def get_event_windowed (cals : List CalCalendar) (now d : Int)
    (event_uid : String) : Option Json :=
  cals.findSome? (fun c =>
    if c.searchOk then
      ((searchWindow c (now - d) (now + d)).find? (fun e => e.uid = event_uid)).map
        (fun e => Json.obj (fmt_event e ++ [("calendar", Json.str (pyOr c.name ""))]))
    else none)

/-- Modelled from the spec: `getEvent` that searches a bounded window and
progressively widens it (±90 days, then ±365 days) before reporting
not-found. Used only for comparison with `get_event`. -/
def get_event_specModel (cals : List CalCalendar) (now : Int)
    (event_uid : String) : Option Json :=
  match get_event_windowed cals now 90 event_uid with
  | some j => some j
  | none => get_event_windowed cals now 365 event_uid

/-- Modelled from the spec: the default target calendar for `createEvent`
with `calendarId` omitted — "the account\x27s designated default calendar, or
else the first calendar returned by listCalendars, in that preference order".
The designated default does not exist anywhere in the source; it is an extra
input here. Used only for comparison with `create_event`. -/
def default_target_specModel (cals : List CalCalendar)
    (designatedDefault : Option String) : Option CalCalendar :=
  match designatedDefault with
  | some d =>
    match cals.find? (fun c => c.id = d) with
    | some c => some c
    | none => cals.head?
  | none => cals.head?

-- ---------------------------------------------------------------------------
-- Concrete fixtures
-- ---------------------------------------------------------------------------

/-- A plain single-part message. -/
def plainMsg (uid : String) (seen : Bool) : MailMsgRec :=
  { uid := uid, subject := "s", fromAddr := "a@ex.com", toAddr := "b@ex.com"
  , date := "d", messageId := "mid", seen := seen, fetchOk := true
  , multipart := false, parts := [], payloadDecoded := some "hello" }

/-- A multipart message whose only part is HTML; its top-level payload is
truthy, so the spec\x27s fallback would produce "fallback text". -/
def htmlOnlyMsg : MailMsgRec :=
  { uid := "7", subject := "s", fromAddr := "a@ex.com", toAddr := "b@ex.com"
  , date := "d", messageId := "mid", seen := true, fetchOk := true
  , multipart := true
  , parts := [{ contentType := "text/html", contentDisposition := ""
              , decoded := "<p>hi</p>" }]
  , payloadDecoded := some "fallback text" }

/-- An event far outside any ±365-day window around `now = 0`. -/
def farEvent : CalEventRec :=
  { uid := "far", summary := "Far future", dtstart := 10000, dtend := 10001
  , location := "", descriptionText := "" }

def mainCal : CalCalendar :=
  { id := "cal1", name := "Main", url := "https://caldav.icloud.com/c1"
  , events := [farEvent], searchOk := true }

/-- Two calendars; "beta" plays the designated default in the C8 comparison. -/
def calAlpha : CalCalendar :=
  { id := "alpha", name := "Alpha", url := "u1", events := [], searchOk := true }

def calBeta : CalCalendar :=
  { id := "beta", name := "Beta", url := "u2", events := [], searchOk := true }

/-- A reminder store with permission granted, one pending reminder, and a
query callback that never fires within the bounded wait. -/
def remTimeoutWorld : RemWorld :=
  { permissionResponse := some true, fetchDelivered := false
  , calendars := [{ uid := "L1", title := "Chores"
                  , reminders := [{ uid := "r1", title := "water plants"
                                  , notes := "", completed := false
                                  , dueInstant := none, priority := 0
                                  , listTitle := "Chores" }] }]
  , defaultListTitle := "Chores", saveOk := true }

/-- A healthy reminder store whose save operation fails. -/
def remSaveFailWorld : RemWorld :=
  { remTimeoutWorld with fetchDelivered := true, saveOk := false }

/-- Keychain empty: `get_credentials` raises. -/
def authNoCreds : AuthWorld :=
  { keychainAppleId := none, keychainPassword := none, loginOk := true
  , requires2fa := false, codeAccepted := false, trustedSession := false }

/-- Credentials stored and accepted with no challenge. -/
def authOk : AuthWorld :=
  { keychainAppleId := some "a@ex.com", keychainPassword := some "pw"
  , loginOk := true, requires2fa := false, codeAccepted := false
  , trustedSession := true }

/-- World with empty Keychain. -/
def wNoCreds : World :=
  { auth := authNoCreds, calendars := [], freshEventUid := "E", now := 0
  , mailboxes := [], smtpOk := true, freshMessageId := "M"
  , rem := remTimeoutWorld, freshReminderUid := "R" }

/-- World with a valid session, one calendar, an empty INBOX. -/
def wOk : World :=
  { auth := authOk, calendars := [mainCal], freshEventUid := "E", now := 0
  , mailboxes := [("INBOX", [])], smtpOk := true, freshMessageId := "M"
  , rem := remTimeoutWorld, freshReminderUid := "R" }

/-- World with the reminder query delivered but the store save failing. -/
def wSaveFail : World :=
  { wOk with rem := remSaveFailWorld }

-- ---------------------------------------------------------------------------
-- Theorems
-- ---------------------------------------------------------------------------

/-- Reduction helper: bind on a success. -/
theorem okBind (a : α) (f : α → Except ε β) : (Except.ok a >>= f) = f a := rfl

/-- Reduction helper: bind on a raised exception. -/
theorem errBind (e : ε) (f : α → Except ε β) :
    ((Except.error e : Except ε α) >>= f) = Except.error e := rfl

/-- Reduction helper: `pure` in the `Except` monad. -/
theorem pureExcept (a : α) : (pure a : Except ε α) = Except.ok a := rfl

/-- Claim C1 counterexample: with an empty Keychain, the credential-lookup
RuntimeError raised inside `_get_api()` leaves `call_tool` as a raised
exception (`.error`), not as an `{error: ...}` envelope, because
`api = _get_api()` runs before the `try:` block. This refutes "no raw
exception ever propagates out of the tool-call handler". -/
theorem c1_counterexample :
    (call_tool wNoCreds none "calendar_list_calendars" []).1 =
      Except.error "iCloud credentials not found in Keychain.\nRun: uv run python3 auth.py store" :=
  rfl

/-- Claim C1 (amended): every error raised inside the dispatch (the `try:`
body) is converted to an `{error: message}` envelope, and a successful
session always yields a success-shaped reply; but an error raised during
session establishment (`_get_api`) propagates out of `call_tool` unchanged. -/
theorem c1_gateway_error_boundary (w : World) (st : Option Api)
    (name : String) (args : Args) :
    (∀ e api, runTool w api name args = Except.error e →
      dispatch w api name args = errorEnvelope e)
    ∧ (∀ api, (get_api w.auth st).1 = Except.ok api →
      (call_tool w st name args).1 = Except.ok (dispatch w api name args))
    ∧ (∀ e, (get_api w.auth st).1 = Except.error e →
      (call_tool w st name args).1 = Except.error e) := by
  refine ⟨?_, ?_, ?_⟩
  · intro e api h
    unfold dispatch
    rw [h]
  · intro api h
    unfold call_tool
    rcases hg : get_api w.auth st with ⟨r, st2⟩
    rw [hg] at h
    cases r with
    | error e => exact absurd h (by simp)
    | ok api2 => simp at h; subst h; rfl
  · intro e h
    unfold call_tool
    rcases hg : get_api w.auth st with ⟨r, st2⟩
    rw [hg] at h
    cases r with
    | error e2 => simp at h; subst h; rfl
    | ok api2 => exact absurd h (by simp)

/-- Claim C1 witness: a successful session yields the dispatched reply. -/
theorem c1_witness :
    (call_tool wOk none "mail_list_mailboxes" []).1 =
      Except.ok (dispatch wOk { appleId := "a@ex.com", appPassword := "pw" }
        "mail_list_mailboxes" []) :=
  (c1_gateway_error_boundary wOk none "mail_list_mailboxes" []).2.1
    { appleId := "a@ex.com", appPassword := "pw" } rfl

/-- Claim C2 counterexample: `calendar_get_event` / `mail_get_message` on a
nonexistent identifier return an ERROR envelope (the gateway rewrites the
adapter\x27s `None` into `{"error": "... not found."}`), refuting "a
null/absent success result (not an error envelope)". -/
theorem c2_counterexample :
    (call_tool wOk none "calendar_get_event" [("event_uid", ArgV.s "missing")]).1 =
      Except.ok (errorEnvelope "Event \x27missing\x27 not found.")
    ∧ (call_tool wOk none "mail_get_message" [("uid", ArgV.s "42")]).1 =
      Except.ok (errorEnvelope "Message \x2742\x27 not found.")
    ∧ isErrorEnvelope (errorEnvelope "Event \x27missing\x27 not found.") = true
    ∧ isErrorEnvelope (errorEnvelope "Message \x2742\x27 not found.") = true :=
  ⟨rfl, rfl, rfl, rfl⟩

/-- Claim C2 (amended): the adapters return `None` for a missing uid, but the
gateway converts that `None` into the error envelope
`{"error": "<Entity> \x27<uid>\x27 not found."}` — not-found surfaces as an
error envelope, not as a null success result. -/
theorem c2_not_found_becomes_error_envelope (w : World) (api : Api)
    (uid mbname : String) (mbox : List MailMsgRec)
    (hcal : get_event w.calendars uid = none)
    (hsel : selectMailbox w.mailboxes mbname = Except.ok mbox)
    (hmsg : get_message mbox uid = none) :
    runTool w api "calendar_get_event" [("event_uid", ArgV.s uid)] =
      Except.ok (errorEnvelope ("Event \x27" ++ uid ++ "\x27 not found."))
    ∧ runTool w api "mail_get_message"
        [("uid", ArgV.s uid), ("mailbox", ArgV.s mbname)] =
      Except.ok (errorEnvelope ("Message \x27" ++ uid ++ "\x27 not found.")) := by
  constructor
  · simp [runTool, getStrReq, getStrOpt, getArg?, okBind, pureExcept, hcal]
  · simp [runTool, getStrReq, getStrOpt, getStrD, getArg?, okBind, pureExcept,
      hsel, hmsg]

/-- Claim C2 witness. -/
theorem c2_witness :
    runTool wOk { appleId := "a@ex.com", appPassword := "pw" }
      "calendar_get_event" [("event_uid", ArgV.s "nope")] =
      Except.ok (errorEnvelope ("Event \x27" ++ "nope" ++ "\x27 not found.")) :=
  (c2_not_found_becomes_error_envelope wOk
    { appleId := "a@ex.com", appPassword := "pw" } "nope" "INBOX" [] rfl rfl rfl).1

/-- Claim C3 counterexample: a Reminder tool call with an empty Keychain dies
in session establishment — `call_tool` runs `_get_api()` for EVERY tool, so
`reminders_list_lists` does require an authenticated iCloud session, refuting
the claim that reminder tools never do. -/
theorem c3_counterexample :
    (call_tool wNoCreds none "reminders_list_lists" []).1 =
      Except.error "iCloud credentials not found in Keychain.\nRun: uv run python3 auth.py store" :=
  rfl

/-- Claim C3 (amended): the gateway establishes the iCloud session before
dispatch for every tool name — reminder tools included — so any session
failure aborts any tool call. -/
theorem c3_session_required_for_all_tools (w : World) (st : Option Api)
    (name : String) (args : Args) (e : String)
    (h : (get_api w.auth st).1 = Except.error e) :
    (call_tool w st name args).1 = Except.error e := by
  unfold call_tool
  rcases hg : get_api w.auth st with ⟨r, st2⟩
  rw [hg] at h
  cases r with
  | error e2 => simp at h; subst h; rfl
  | ok api => exact absurd h (by simp)

/-- Claim C3 witness: a reminder tool aborted by the session layer. -/
theorem c3_witness :
    (call_tool wNoCreds none "reminders_complete_reminder" [("uid", ArgV.s "r1")]).1 =
      Except.error "iCloud credentials not found in Keychain.\nRun: uv run python3 auth.py store" :=
  c3_session_required_for_all_tools wNoCreds none "reminders_complete_reminder"
    [("uid", ArgV.s "r1")] _ rfl

/-- Claim C4 counterexample: permission granted, a pending reminder exists,
but the fetch callback never fires within the bounded wait — and
`list_reminders` returns a SILENT normal `[]`, not a timeout error. -/
theorem c4_counterexample :
    remTimeoutWorld.fetchDelivered = false
    ∧ remTimeoutWorld.calendars ≠ []
    ∧ list_reminders remTimeoutWorld none false = Except.ok [] :=
  ⟨rfl, by decide, rfl⟩

/-- Claim C4 (amended): every callback bridge waits a bounded 30 time units
(never an indefinite hang), but on timeout: the permission wait raises the
permission-denied error (not a distinguished timeout error), and the
reminder-query wait silently produces a normal empty-list result. -/
theorem c4_bounded_wait_behaviour (w : RemWorld) (lu : Option String) (ic : Bool) :
    REMINDER_WAIT_TIMEOUT = 30
    ∧ (w.permissionResponse = some true → w.fetchDelivered = false →
        list_reminders w lu ic = Except.ok [])
    ∧ (w.permissionResponse = none →
        list_reminders w lu ic = Except.error
          "Access to Reminders was denied. Grant access in System Settings → Privacy & Security → Reminders.") := by
  refine ⟨rfl, ?_, ?_⟩
  · intro hp hf
    simp [list_reminders, get_store, hp, hf]
  · intro hp
    simp [list_reminders, get_store, hp]

/-- Claim C4 witness. -/
theorem c4_witness :
    list_reminders remTimeoutWorld (some "L1") true = Except.ok [] :=
  (c4_bounded_wait_behaviour remTimeoutWorld (some "L1") true).2.1 rfl rfl

/-- Claim C5 counterexample: with `limit = 0` (a caller-supplied value) the
slice `uids[-limit:]` is `uids[0:]` — the whole mailbox — so a 101-message
mailbox yields 101 results, more than 100. -/
theorem c5_counterexample :
    100 < (list_messages (List.replicate 101 (plainMsg "u" false)) 0 false).length := by
  have h : (list_messages (List.replicate 101 (plainMsg "u" false)) 0 false).length = 101 := rfl
  rw [h]
  omega

/-- Helper: the Python slice `xs[-k:]` keeps at most `k` elements when
`1 ≤ k`. -/
theorem pySliceFrom_neg_length_le (xs : List α) (k : Int) (hk : 1 ≤ k) :
    (pySliceFrom xs (-k)).length ≤ k.toNat := by
  unfold pySliceFrom
  have hneg : (-k) < 0 := by omega
  rw [if_pos hneg, List.length_drop]
  rcases le_total ((xs.length : Int) + -k) 0 with h1 | h1
  · rw [max_eq_right h1]
    omega
  · rw [max_eq_left h1]
    omega

/-- Claim C5 (amended): for every positive caller-supplied limit,
`list_messages` returns at most 100 messages (`limit` is clamped to 100); with
`limit ≤ 0` the Python slice semantics can return more (see the
counterexample). -/
theorem c5_limit_clamp (mbox : List MailMsgRec) (limit : Int) (u : Bool)
    (h : 1 ≤ limit) : (list_messages mbox limit u).length ≤ 100 := by
  unfold list_messages
  simp only [List.length_map]
  have h1 : 1 ≤ min limit 100 := le_min h (by omega)
  have h2 := pySliceFrom_neg_length_le
    (if u then mbox.filter (fun m => !m.seen) else mbox) (min limit 100) h1
  have h3 : (min limit 100).toNat ≤ 100 := by
    rcases le_total limit 100 with h4 | h4
    · rw [min_eq_left h4]; omega
    · rw [min_eq_right h4]; omega
  calc ((pySliceFrom (if u then mbox.filter (fun m => !m.seen) else mbox)
          (-(min limit 100))).reverse.filter (fun m => m.fetchOk)).length
      ≤ (pySliceFrom (if u then mbox.filter (fun m => !m.seen) else mbox)
          (-(min limit 100))).reverse.length := List.length_filter_le _ _
    _ = (pySliceFrom (if u then mbox.filter (fun m => !m.seen) else mbox)
          (-(min limit 100))).length := List.length_reverse _
    _ ≤ (min limit 100).toNat := h2
    _ ≤ 100 := h3

/-- Claim C5 witness: `limit = 250` yields at most 100 results. -/
theorem c5_witness :
    (list_messages (List.replicate 101 (plainMsg "u" false)) 250 false).length ≤ 100 :=
  c5_limit_clamp (List.replicate 101 (plainMsg "u" false)) 250 false (by omega)

/-- Claim C6 counterexample: `get_event` finds an event 10000 days away from
`now`, while the spec-modelled progressively-widened (±90, then ±365 days)
search reports not-found — the source performs no bounded-window search at
all. -/
theorem c6_counterexample :
    (get_event [mainCal] "far").isSome = true
    ∧ get_event_specModel [mainCal] 0 "far" = none
    ∧ farEvent.dtstart = 10000 :=
  ⟨rfl, rfl, rfl⟩

/-- Claim C6 (amended): `get_event` performs a single unbounded uid search —
it succeeds exactly when some calendar whose search does not raise contains a
matching event, regardless of the event\x27s date; not-found is reported only
after scanning every calendar. -/
theorem c6_unbounded_uid_search (cals : List CalCalendar) (event_uid : String) :
    (get_event cals event_uid).isSome = true ↔
      ∃ c ∈ cals, c.searchOk = true ∧ ∃ e ∈ c.events, e.uid = event_uid := by
  unfold get_event
  rw [List.findSome?_isSome_iff]
  constructor
  · rintro ⟨c, hc, hsome⟩
    by_cases hs : c.searchOk
    · rw [if_pos hs, Option.isSome_map'] at hsome
      rw [List.find?_isSome] at hsome
      obtain ⟨e, he, heq⟩ := hsome
      exact ⟨c, hc, hs, e, he, by simpa using heq⟩
    · rw [if_neg hs] at hsome
      exact absurd hsome (by simp)
  · rintro ⟨c, hc, hs, e, he, heq⟩
    refine ⟨c, hc, ?_⟩
    rw [if_pos hs, Option.isSome_map', List.find?_isSome]
    exact ⟨e, he, by simpa using heq⟩

/-- Claim C7 counterexample: a multipart message with only an HTML part — the
source leaves the body empty, while the spec-modelled extraction falls back
to the (truthy) top-level payload; the claim\x27s fallback does not happen
for multi-part messages. -/
theorem c7_counterexample :
    extract_body htmlOnlyMsg = ""
    ∧ extract_body_specModel htmlOnlyMsg = "fallback text"
    ∧ htmlOnlyMsg.multipart = true
    ∧ extract_body htmlOnlyMsg ≠ extract_body_specModel htmlOnlyMsg :=
  ⟨rfl, rfl, rfl, by decide⟩

/-- Claim C7 (amended): body extraction is total (never throws); for a
multipart message it takes the first plain-text non-attachment part and
yields the EMPTY string when none exists (no fallback); the top-level-payload
fallback applies only to non-multipart messages. -/
theorem c7_multipart_body_selection (m : MailMsgRec) :
    (∀ p, m.multipart = true → m.parts.find? isPlainNonAttachment = some p →
      extract_body m = p.decoded)
    ∧ (m.multipart = true → m.parts.find? isPlainNonAttachment = none →
      extract_body m = "")
    ∧ (m.multipart = false → extract_body m = (m.payloadDecoded).getD "") := by
  refine ⟨?_, ?_, ?_⟩
  · intro p hm hf
    simp [extract_body, hm, hf]
  · intro hm hf
    simp [extract_body, hm, hf]
  · intro hm
    cases hp : m.payloadDecoded <;> simp [extract_body, hm, hp]

/-- Claim C7 witness. -/
theorem c7_witness : extract_body htmlOnlyMsg = "" :=
  (c7_multipart_body_selection htmlOnlyMsg).2.1 rfl rfl

/-- Claim C8 counterexample: two calendars where "beta" plays the designated
default — `create_event` with `calendar_uid` omitted targets the FIRST
calendar ("Alpha"), while the spec-modelled preference order picks the
designated default ("Beta"); the source never consults any designated
default. -/
theorem c8_counterexample :
    create_event [calAlpha, calBeta] "fresh" "T" "0" "1" none "" "" =
      Except.ok (Json.obj
        [ ("uid", Json.str "fresh"), ("title", Json.str "T")
        , ("start", Json.num 0), ("end", Json.num 1)
        , ("location", Json.str ""), ("description", Json.str "")
        , ("calendar", Json.str "Alpha") ])
    ∧ default_target_specModel [calAlpha, calBeta] (some "beta") = some calBeta
    ∧ calBeta.name = "Beta" :=
  ⟨rfl, rfl, rfl⟩

/-- Claim C8 (amended): when `calendar_uid` is omitted, `create_event`
unconditionally targets the head of `principal.calendars()` — for every
calendar list and every parseable start/end, the created event lands in the
first calendar. -/
theorem c8_first_calendar_default (c : CalCalendar) (rest : List CalCalendar)
    (freshUid title startS endS location descr : String) (s e : Int)
    (hs : parseDate startS = some s) (he : parseDate endS = some e) :
    create_event (c :: rest) freshUid title startS endS none location descr =
      Except.ok (Json.obj
        [ ("uid", Json.str freshUid), ("title", Json.str title)
        , ("start", Json.num s), ("end", Json.num e)
        , ("location", Json.str location), ("description", Json.str descr)
        , ("calendar", Json.str (pyOr c.name "")) ]) := by
  simp [create_event, hs, he, okBind, pureExcept]

/-- Claim C8 witness. -/
theorem c8_witness :
    create_event [calAlpha, calBeta] "W" "T2" "5" "6" none "L" "D" =
      Except.ok (Json.obj
        [ ("uid", Json.str "W"), ("title", Json.str "T2")
        , ("start", Json.num 5), ("end", Json.num 6)
        , ("location", Json.str "L"), ("description", Json.str "D")
        , ("calendar", Json.str (pyOr calAlpha.name "")) ]) :=
  c8_first_calendar_default calAlpha [calBeta] "W" "T2" "5" "6" "L" "D" 5 6 rfl rfl

/-- Helper: the value `_get_api` stores back into the `_api` global is
`some api` exactly on success and `none` exactly on a raised exception. -/
theorem get_api_cache_consistent (a : AuthWorld) :
    (get_api a none).2 = match (get_api a none).1 with
      | Except.ok api => some api
      | Except.error e2 => none := by
  unfold get_api
  cases hc : get_credentials a with
  | error e => rfl
  | ok cred =>
    obtain ⟨i, p⟩ := cred
    cases hl : a.loginOk with
    | false => rfl
    | true =>
      cases h2 : (a.requires2fa && !a.codeAccepted) with
      | true => simp [hl, h2]
      | false => simp [hl, h2]

/-- Claim C9: a session that authenticates successfully is memoized (the
global becomes `some api`), a memoized session is returned for every later
world without consulting credentials or login (the result is a constant in
the world), a failed attempt leaves the global `none`, and `call_tool`
propagates exactly the session state `_get_api` decided â so after a failure
the next call re-runs authentication from scratch. -/
theorem c9_session_memoization :
    (∀ a api, (get_api a none).1 = Except.ok api → (get_api a none).2 = some api)
    ∧ (∀ a api, get_api a (some api) = (Except.ok api, some api))
    ∧ (∀ a e, (get_api a none).1 = Except.error e → (get_api a none).2 = none)
    ∧ (∀ w st name args, (call_tool w st name args).2 = (get_api w.auth st).2) := by
  refine ⟨?_, ?_, ?_, ?_⟩
  · intro a api h
    have hk := get_api_cache_consistent a
    rw [h] at hk
    exact hk
  · intro a api
    rfl
  · intro a e h
    have hk := get_api_cache_consistent a
    rw [h] at hk
    exact hk
  · intro w st name args
    unfold call_tool
    rcases hg : get_api w.auth st with ⟨r, st2⟩
    cases r <;> rfl

/-- Claim C9 witness: successful authentication memoizes; missing credentials
leave the global unset. -/
theorem c9_witness :
    (get_api authOk none).2 = some { appleId := "a@ex.com", appPassword := "pw" }
    ∧ (get_api authNoCreds none).2 = none :=
  ⟨c9_session_memoization.1 authOk { appleId := "a@ex.com", appPassword := "pw" } rfl,
   c9_session_memoization.2.2.1 authNoCreds
     "iCloud credentials not found in Keychain.\nRun: uv run python3 auth.py store" rfl⟩

/-- Claim C10: `reminders_complete_reminder` reports `{completed: true}`
whenever a reminder with the uid exists, even when the store save fails
(`saveOk = false`): `saveReminder_commit_error_`\x27s result is discarded, so
`true` does not guarantee persistence. -/
theorem c10_complete_ignores_save_result (w : World) (api : Api)
    (uid : String) (r : RemReminder)
    (hperm : w.rem.permissionResponse = some true)
    (hsave : w.rem.saveOk = false)
    (hfound : (w.rem.calendars.flatMap (fun c => c.reminders)).find?
      (fun x => x.uid = uid) = some r) :
    runTool w api "reminders_complete_reminder" [("uid", ArgV.s uid)] =
      Except.ok (Json.obj [("completed", Json.bool true)]) := by
  have h0 : complete_reminder w.rem uid =
      (match (w.rem.calendars.flatMap fun c => c.reminders).find?
          (fun r => r.uid = uid) with
        | none => Except.ok false
        | some _ => Except.ok true) := by
    unfold complete_reminder get_store
    rw [hperm]
    rfl
  have hcr : complete_reminder w.rem uid = Except.ok true := by
    rw [h0, hfound]
  simp [runTool, getStrReq, getStrOpt, getArg?, okBind, pureExcept, hcr]

/-- Claim C10 witness: the reminder exists, the save fails, the tool still
reports `{completed: true}`. -/
theorem c10_witness :
    runTool wSaveFail { appleId := "a@ex.com", appPassword := "pw" }
      "reminders_complete_reminder" [("uid", ArgV.s "r1")] =
      Except.ok (Json.obj [("completed", Json.bool true)]) :=
  c10_complete_ignores_save_result wSaveFail
    { appleId := "a@ex.com", appPassword := "pw" } "r1"
    { uid := "r1", title := "water plants", notes := "", completed := false
    , dueInstant := none, priority := 0, listTitle := "Chores" }
    rfl rfl rfl

end ICloudMCP
